import Mathlib

/-!
Shallow embedding of the BMP decoding code of this repository
(the `BMPConverter` part of `src/Util.hpp`: struct `RGB`, class
`ImageBuffer`, class `BMP` with its methods `Load`, `LoadColorPalleta`
and `LoadRGBData`, the `RoundUp` helper and the `ABS` macro).

A file's contents are modelled as a `List Nat` of byte values and the
POSIX calls the code performs (`open`, `read`, `lseek`, `close`) are
modelled by explicit cursor passing plus an `IOEvent` trace that records
every attempted call.  POSIX semantics used by the embedding:
`read(fd, buf, n)` at or past end of file returns 0 (which passes the
code's `>= 0` checks and fails its `> 0` checks) and otherwise returns
`min n remaining`, advancing the cursor by that amount;
`lseek(fd, off, SEEK_SET)` returns `off` for any nonnegative `off`
(seeking past end of file is permitted), so the code's `lseek(...) > 0`
checks fail exactly when the target offset is 0 (or negative).
32-bit unsigned arithmetic is reduced `% 2 ^ 32` where the source
operates on `uint32_t` values.
-/

namespace BMPModel

/-- Little-endian value of a list of bytes (entries are byte values,
each below 256, when the list models file contents). -/
def leVal : List Nat → Nat
  | [] => 0
  | b :: rest => b + 256 * leVal rest

/-- Field extraction from a raw byte block: bytes `[off, off+len)`
little-endian.  Bytes beyond the end of the block read as 0, matching
the source, which `memset`s the packed struct to zero before `read`
fills in however many bytes the file provides. -/
def field (bs : List Nat) (off len : Nat) : Nat :=
  leVal ((bs.drop off).take len)

/-- Reinterpret a 32-bit unsigned value as the `int32_t` the packed
struct declares for `nWidth` and `nHeight` (two's complement). -/
def toInt32 (v : Nat) : Int :=
  if v < 2 ^ 31 then (v : Int) else (v : Int) - 2 ^ 32

/-- The packed `BMPHeader` struct of class `BMP` (field names as in the
source; `nWidth` and `nHeight` are `int32_t`, the rest unsigned). -/
structure BMPHeader where
  signature : Nat
  nBitmapByteSize : Nat
  nReserved : Nat
  nDataOffSet : Nat
  nBIDHeaderSize : Nat
  nWidth : Int
  nHeight : Int
  nColorPanes : Nat
  nBitPerPixel : Nat
  nCompressionMethod : Nat
  nRawBitmapSize : Nat
  nWidthPixPerMeter : Nat
  nHeightPixPerMeter : Nat
  nColorsInPalleta : Nat
  nImportantColors : Nat
deriving DecidableEq

/-- The header as `read(m_nFD, &m_bmpHeader, sizeof(BMPHeader))` leaves
it: the packed 54-byte little-endian layout overlaid on zeroed memory.
Offsets follow the packed struct declaration in the source. -/
def parseHeader (bs : List Nat) : BMPHeader where
  signature := field bs 0 2
  nBitmapByteSize := field bs 2 4
  nReserved := field bs 6 4
  nDataOffSet := field bs 10 4
  nBIDHeaderSize := field bs 14 4
  nWidth := toInt32 (field bs 18 4)
  nHeight := toInt32 (field bs 22 4)
  nColorPanes := field bs 26 2
  nBitPerPixel := field bs 28 2
  nCompressionMethod := field bs 30 4
  nRawBitmapSize := field bs 34 4
  nWidthPixPerMeter := field bs 38 4
  nHeightPixPerMeter := field bs 42 4
  nColorsInPalleta := field bs 46 4
  nImportantColors := field bs 50 4

/-- The all-zero header the `BMP` constructor's `memset` produces. -/
def zeroHeader : BMPHeader :=
  ⟨0, 0, 0, 0, 0, 0, 0, 0, 0, 0, 0, 0, 0, 0, 0⟩

/-- The packed `RGB` struct of the source: four one-byte fields declared
in the order `nRed`, `nGreen`, `nBlue`, `nAlpha`. -/
structure RGB where
  nRed : Nat
  nGreen : Nat
  nBlue : Nat
  nAlpha : Nat
deriving DecidableEq

/-- The `RGB` value a raw 4-byte `read` at cursor `pos` stores: the file
bytes land in the struct fields in declaration order, so `nRed` receives
the FIRST byte of the entry, `nBlue` the third.  (A short read at end of
file leaves trailing fields as uninitialized memory in the source; the
embedding reads them as 0, and no claim depends on that corner.) -/
def entryAt (file : List Nat) (pos : Nat) : RGB :=
  ⟨file.getD pos 0, file.getD (pos + 1) 0, file.getD (pos + 2) 0,
   file.getD (pos + 3) 0⟩

/-- One attempted POSIX call, as recorded in a decode trace.
`readEv n` records a `read` requesting `n` bytes, `seekEv t` an
`lseek(fd, t, SEEK_SET)`. -/
inductive IOEvent where
  | openEv : IOEvent
  | readEv : Nat → IOEvent
  | seekEv : Nat → IOEvent
  | closeEv : IOEvent
deriving DecidableEq

/-- Result of `BMP::LoadColorPalleta` (also used for its entry-reading
loop): trace of attempted calls, palette entries stored into
`m_pRGBPalleta` so far, final file cursor, and the returned `bool`. -/
structure PalletaResult where
  events : List IOEvent
  entries : List RGB
  pos : Nat
  ok : Bool
deriving DecidableEq

/-- The `for (nCount = 0; nCount < nColorsInPalleta; nCount++)` loop of
`LoadColorPalleta`: each iteration `read`s `sizeof(RGB) = 4` bytes into
the next entry and fails (returns false) when `read` returns 0, i.e.
when the cursor is at or past end of file. -/
def loadPalletaLoop (file : List Nat) : Nat → Nat → PalletaResult
  | pos, 0 => ⟨[], [], pos, true⟩
  | pos, n + 1 =>
    if file.length ≤ pos then ⟨[IOEvent.readEv 4], [], pos, false⟩
    else
      let r := loadPalletaLoop file (pos + min 4 (file.length - pos)) n
      ⟨IOEvent.readEv 4 :: r.events, entryAt file pos :: r.entries, r.pos, r.ok⟩

/-- `BMP::LoadColorPalleta`.  Checks the stored signature, and only when
`nColorsInPalleta > 0` seeks to `BMP_HEADERSIZE + nBIDHeaderSize`
(computed as `int` from `14 + uint32`; modelled with the two's-complement
wrap the targeted compilers implement) and reads the entries.  `lseek`
fails the `> 0` check when the target is zero or negative. -/
def LoadColorPalleta (hdr : BMPHeader) (file : List Nat) (pos : Nat) :
    PalletaResult :=
  if hdr.signature ≠ 19778 then ⟨[], [], pos, false⟩
  else if 0 < hdr.nColorsInPalleta then
    let offU := (14 + hdr.nBIDHeaderSize) % 2 ^ 32
    let offI := toInt32 offU
    if offI ≤ 0 then ⟨[IOEvent.seekEv offU], [], pos, false⟩
    else
      let r := loadPalletaLoop file offI.toNat hdr.nColorsInPalleta
      ⟨IOEvent.seekEv offI.toNat :: r.events, r.entries, r.pos, r.ok⟩
  else ⟨[], [], pos, true⟩

/-- `nBytesPerPixel` of `LoadRGBData`:
`nBytesPerPixelFactor < 1 ? 1 : (uint8_t)nBytesPerPixelFactor` where the
factor is `bitPerPixel / 8.0` (exact in double).  The `uint8_t` cast
truncates; for `d < 2048` the cast is in range and equals `d / 8`. -/
def nBytesPerPixel (d : Nat) : Nat :=
  if d < 8 then 1 else d / 8 % 256

/-- `nBytesPerRow` of `LoadRGBData`:
`(uint32_t)RoundUp(width * (bitPerPixel / 8.0))`.  For `w < 2 ^ 31` and
`d < 2 ^ 16` the product `w * d / 8` is an exact dyadic double below
`2 ^ 53`, so `RoundUp` computes the exact ceiling `(w * d + 7) / 8`. -/
def nBytesPerRow (w d : Nat) : Nat :=
  (w * d + 7) / 8

/-- `nPaddingSize` of `LoadRGBData`:
`nBytesPerRow % 4 > 0 ? (4 - nBytesPerRow % 4) : 0`. -/
def nPaddingSize (b : Nat) : Nat :=
  if b % 4 > 0 then 4 - b % 4 else 0

/-- `nRowDataSize` of `LoadRGBData`: `nBytesPerRow + nPaddingSize`. -/
def nRowDataSize (w d : Nat) : Nat :=
  nBytesPerRow w d + nPaddingSize (nBytesPerRow w d)

/-- Result of `BMP::LoadRGBData`: trace, final cursor, returned bool. -/
structure RGBDataResult where
  events : List IOEvent
  pos : Nat
  ok : Bool
deriving DecidableEq

/-- The inner `for (nCount = 0; nCount < nBytesPerRow; nCount++)` loop:
each iteration `read`s `nBytesPerPixel` bytes, checked with `>= 0`, so
it never fails (a read at end of file returns 0 and passes). -/
def rowReads (bpp fileLen : Nat) : Nat → Nat → List IOEvent × Nat
  | pos, 0 => ([], pos)
  | pos, n + 1 =>
    let r := rowReads bpp fileLen (pos + min bpp (fileLen - pos)) n
    (IOEvent.readEv bpp :: r.1, r.2)

/-- The outer row loop of `LoadRGBData`: for each row it seeks to
`nDataOffSet + nRowDataSize * nRowCount` (uint32 arithmetic), failing
when the `lseek` return fails the `> 0` check, then performs the inner
read loop. -/
def loadRGBRows (dataOff stride bpr bpp fileLen : Nat) :
    Nat → Nat → Nat → RGBDataResult
  | _, pos, 0 => ⟨[], pos, true⟩
  | r, pos, k + 1 =>
    let target := (dataOff + stride * r) % 2 ^ 32
    if target = 0 then ⟨[IOEvent.seekEv target], pos, false⟩
    else
      let rr := rowReads bpp fileLen target bpr
      let rest := loadRGBRows dataOff stride bpr bpp fileLen (r + 1) rr.2 k
      ⟨IOEvent.seekEv target :: (rr.1 ++ rest.events), rest.pos, rest.ok⟩

/-- `BMP::LoadRGBData`.  Checks the stored signature, computes the
scanline geometry and runs the row loop over `ABS(nHeight)` rows.
The loop body only calls `PrintBinary` on the bytes just read; the
branch `if (nBitPerPixel >= 8) { }` is empty, and nothing is ever
stored into any pixel buffer, so the result carries no image data.
A negative `nWidth` would feed a negative double to `RoundUp`, whose
`uint64_t` cast is undefined behaviour; the embedding uses `Int.toNat`
(clamping at 0) and no claim exercises negative widths. -/
def LoadRGBData (hdr : BMPHeader) (file : List Nat) (pos : Nat) :
    RGBDataResult :=
  if hdr.signature ≠ 19778 then ⟨[], pos, false⟩
  else
    let w := hdr.nWidth.toNat
    let d := hdr.nBitPerPixel
    loadRGBRows hdr.nDataOffSet (nRowDataSize w d) (nBytesPerRow w d)
      (nBytesPerPixel d) file.length 0 pos hdr.nHeight.natAbs

/-- Complete observable outcome of a call to `BMP::Load` on a fresh
`BMP` object: the trace of attempted POSIX calls, the returned bool,
the header left in `m_bmpHeader`, the palette entries stored into
`m_pRGBPalleta`, and the (ignored) bools returned by the two private
loaders — `none` when the corresponding call was never reached.
No pixel data appears here because `Load` produces none: the source
never instantiates `ImageBuffer` and `m_pRGBData` is never written. -/
structure LoadResult where
  events : List IOEvent
  ret : Bool
  header : BMPHeader
  palleta : List RGB
  palletaOk : Option Bool
  rgbOk : Option Bool
deriving DecidableEq

/-- `BMP::Load`.  The filename is the `std::string` argument, modelled
as its character list; `file = none` models an `open` failure, `some f`
a successful open of a file with contents `f`.  Mirrors the source
line by line: zero-length-name check (before any call), `open`,
54-byte header `read` checked with `>= 0` (never fails), signature and
compression checks, then `LoadColorPalleta()` and `LoadRGBData()` whose
return values the source discards, then `close` and `return true`.
No `close` happens on the early-return failure paths. -/
def Load (strFileName : List Char) (file : Option (List Nat)) :
    LoadResult :=
  if strFileName.length = 0 then ⟨[], false, zeroHeader, [], none, none⟩
  else
    match file with
    | none => ⟨[IOEvent.openEv], false, zeroHeader, [], none, none⟩
    | some f =>
      let hdr := parseHeader f
      if hdr.signature ≠ 19778 then
        ⟨[IOEvent.openEv, IOEvent.readEv 54], false, hdr, [], none, none⟩
      else if hdr.nCompressionMethod ≠ 0 then
        ⟨[IOEvent.openEv, IOEvent.readEv 54], false, hdr, [], none, none⟩
      else
        let p := LoadColorPalleta hdr f (min 54 f.length)
        let r := LoadRGBData hdr f p.pos
        ⟨[IOEvent.openEv, IOEvent.readEv 54] ++ p.events ++ r.events ++
          [IOEvent.closeEv], true, hdr, p.entries, some p.ok, some r.ok⟩

/-- The `ImageBuffer` class as declared in the source: its constructor
records width, height and `(nWidth * nHeight) * sizeof(RGB)` and
allocates the pixel array.  The class declares no `set`, `get` or any
other member that writes or reads a pixel, and no code in the
repository ever instantiates it. -/
structure ImageBuffer where
  m_nWidth : Nat
  m_nHeight : Nat
  m_ImageBytesSize : Nat
deriving DecidableEq

/-- The `ImageBuffer(uint32_t nWidth, int32_t nHeight)` constructor
(32-bit arithmetic for the member initializers). -/
def ImageBuffer.mk32 (nWidth : Nat) (nHeight : Int) : ImageBuffer :=
  let h := (nHeight % 2 ^ 32).toNat
  ⟨nWidth % 2 ^ 32, h, nWidth % 2 ^ 32 * h * 4 % 2 ^ 64⟩

/-- Spec-side helper for stating palette lemmas: the entries a complete
run of the palette loop starting at cursor `pos` stores, in order. -/
def entriesFrom (file : List Nat) : Nat → Nat → List RGB
  | _, 0 => []
  | pos, n + 1 => entryAt file pos :: entriesFrom file (pos + 4) n

/-- Spec-side helper for stating row-loop lemmas: the trace a complete
run of the row loop produces — per row, one seek to
`dataOff + stride * row` followed by `bpr` reads of `bpp` bytes. -/
def rowTraces (dataOff stride bpr bpp : Nat) : Nat → Nat → List IOEvent
  | _, 0 => []
  | r, k + 1 =>
    (IOEvent.seekEv (dataOff + stride * r) ::
      List.replicate bpr (IOEvent.readEv bpp)) ++
    rowTraces dataOff stride bpr bpp (r + 1) k

/-- Helper to build 2-byte little-endian test data. -/
def le2 (v : Nat) : List Nat := [v % 256, v / 256 % 256]

/-- Helper to build 4-byte little-endian test data. -/
def le4 (v : Nat) : List Nat :=
  [v % 256, v / 256 % 256, v / 65536 % 256, v / 16777216 % 256]

/-- A 54-byte header block in the file layout the packed struct reads
(reserved and the two resolution fields fixed at 0). -/
def mkHeaderBytes (sig fsz dOff bid w h planes bpp comp raw colors
    important : Nat) : List Nat :=
  le2 sig ++ le4 fsz ++ le4 0 ++ le4 dOff ++ le4 bid ++ le4 w ++ le4 h ++
  le2 planes ++ le2 bpp ++ le4 comp ++ le4 raw ++ le4 0 ++ le4 0 ++
  le4 colors ++ le4 important

/-- A valid-looking 8-bit header claiming one palette entry, with the
file truncated right at byte 54, so the palette entry read fails. -/
def file1 : List Nat := mkHeaderBytes 19778 54 54 40 1 0 1 8 0 0 1 0

/-- The spec's end-to-end example: a 2-by-2, 24-bit, uncompressed BMP
with dataOffset 54; bottom row red, green; top row blue, white; each
scanline padded to a multiple of 4 bytes (stride 8). -/
def file2 : List Nat :=
  mkHeaderBytes 19778 70 54 40 2 2 1 24 0 16 0 0 ++
  [0, 0, 255, 0, 255, 0, 0, 0] ++ [255, 0, 0, 255, 255, 255, 0, 0]

/-- A header with valid signature and compression 0 but
`nBIDHeaderSize = 124` (not 40) and `nBitPerPixel = 2` (unsupported). -/
def file3 : List Nat := mkHeaderBytes 19778 54 54 124 1 0 1 2 0 0 0 0

/-- A monochrome (bitDepth 1) header with `nColorsInPalleta = 0`. -/
def file6 : List Nat := mkHeaderBytes 19778 54 54 40 1 0 1 1 0 0 0 0

/-- An 8-bit header with one palette entry whose file bytes are
`(0x10, 0x20, 0x30, 0x00)`. -/
def file7 : List Nat :=
  mkHeaderBytes 19778 58 58 40 1 0 1 8 0 0 1 0 ++ [16, 32, 48, 0]

/-- A 1-by-1, 24-bit image: one 3-byte pixel plus one pad byte. -/
def file8 : List Nat :=
  mkHeaderBytes 19778 58 54 40 1 1 1 24 0 4 0 0 ++ [10, 20, 30, 0]

/-- A complete run of the palette loop stores one entry per count. -/
theorem length_entriesFrom (file : List Nat) :
    ∀ (n pos : Nat), (entriesFrom file pos n).length = n := by
  intro n
  induction n with
  | zero => intro pos; rfl
  | succ k ih => intro pos; simp [entriesFrom, ih]

/-- Index formula for the entries of a complete palette-loop run. -/
theorem entriesFrom_getD (file : List Nat) :
    ∀ (n i pos : Nat), i < n →
      (entriesFrom file pos n).getD i ⟨0, 0, 0, 0⟩ =
        entryAt file (pos + 4 * i) := by
  intro n
  induction n with
  | zero => intro i pos h; exact absurd h (Nat.not_lt_zero i)
  | succ k ih =>
    intro i pos h
    cases i with
    | zero => simp [entriesFrom]
    | succ j =>
      simp only [entriesFrom, List.getD_cons_succ]
      rw [ih j (pos + 4) (by omega)]
      congr 1
      omega

/-- When the file holds all requested entries, the palette loop succeeds,
producing one 4-byte read per entry and leaving the cursor after the
last entry. -/
theorem loadPalletaLoop_complete (file : List Nat) :
    ∀ (n pos : Nat), pos + 4 * n ≤ file.length →
      loadPalletaLoop file pos n =
        ⟨List.replicate n (IOEvent.readEv 4), entriesFrom file pos n,
         pos + 4 * n, true⟩ := by
  intro n
  induction n with
  | zero => intro pos h; simp [loadPalletaLoop, entriesFrom]
  | succ k ih =>
    intro pos h
    have hn : ¬ file.length ≤ pos := by omega
    have hm : min 4 (file.length - pos) = 4 := by omega
    simp only [loadPalletaLoop, hm]
    rw [if_neg hn, ih (pos + 4) (by omega)]
    simp [entriesFrom, List.replicate_succ]
    omega

/-- When the file holds the whole palette, `LoadColorPalleta` seeks to
`14 + nBIDHeaderSize`, reads `nColorsInPalleta` 4-byte entries and
returns true. -/
theorem LoadColorPalleta_complete (hdr : BMPHeader) (file : List Nat)
    (pos : Nat) (hsig : hdr.signature = 19778)
    (hc : 0 < hdr.nColorsInPalleta)
    (hb : 14 + hdr.nBIDHeaderSize < 2 ^ 31)
    (hlen : 14 + hdr.nBIDHeaderSize + 4 * hdr.nColorsInPalleta ≤
      file.length) :
    LoadColorPalleta hdr file pos =
      ⟨IOEvent.seekEv (14 + hdr.nBIDHeaderSize) ::
         List.replicate hdr.nColorsInPalleta (IOEvent.readEv 4),
       entriesFrom file (14 + hdr.nBIDHeaderSize) hdr.nColorsInPalleta,
       14 + hdr.nBIDHeaderSize + 4 * hdr.nColorsInPalleta, true⟩ := by
  have h32 : (14 + hdr.nBIDHeaderSize) % 2 ^ 32 = 14 + hdr.nBIDHeaderSize :=
    Nat.mod_eq_of_lt (by omega)
  have hti : toInt32 (14 + hdr.nBIDHeaderSize) =
      ((14 + hdr.nBIDHeaderSize : Nat) : Int) := by
    unfold toInt32
    rw [if_pos hb]
  simp only [LoadColorPalleta, hsig, ne_eq, not_true_eq_false, if_false,
    hc, if_true, h32, hti]
  rw [if_neg (by push_cast; omega : ¬ ((14 + hdr.nBIDHeaderSize : Nat) : Int) ≤ 0)]
  rw [Int.toNat_natCast,
    loadPalletaLoop_complete file hdr.nColorsInPalleta
      (14 + hdr.nBIDHeaderSize) (by omega)]

/-- The inner pixel loop records one read of `bpp` bytes per iteration
and never fails (the source checks `read(...) >= 0`). -/
theorem rowReads_events (bpp fileLen : Nat) :
    ∀ (n pos : Nat),
      (rowReads bpp fileLen pos n).1 =
        List.replicate n (IOEvent.readEv bpp) := by
  intro n
  induction n with
  | zero => intro pos; rfl
  | succ k ih => intro pos; simp [rowReads, ih, List.replicate_succ]

/-- With a nonzero data offset and no 32-bit wraparound, the row loop
runs to completion: per row one seek to `dataOff + stride * row`
followed by `bpr` reads of `bpp` bytes, and it returns true. -/
theorem loadRGBRows_spec (dataOff stride bpr bpp fileLen : Nat)
    (h0 : 0 < dataOff) :
    ∀ (k r pos : Nat), dataOff + stride * (r + k) < 2 ^ 32 →
      (loadRGBRows dataOff stride bpr bpp fileLen r pos k).events =
        rowTraces dataOff stride bpr bpp r k ∧
      (loadRGBRows dataOff stride bpr bpp fileLen r pos k).ok = true := by
  intro k
  induction k with
  | zero => intro r pos h; exact ⟨rfl, rfl⟩
  | succ j ih =>
    intro r pos h
    have hmul : stride * r ≤ stride * (r + (j + 1)) :=
      Nat.mul_le_mul_left _ (by omega)
    have hlt : dataOff + stride * r < 2 ^ 32 := by omega
    have hmod : (dataOff + stride * r) % 2 ^ 32 = dataOff + stride * r :=
      Nat.mod_eq_of_lt hlt
    have hrec := ih (r + 1)
      ((rowReads bpp fileLen (dataOff + stride * r) bpr).2)
      (by rw [show r + 1 + j = r + (j + 1) from by omega]; exact h)
    simp only [loadRGBRows, hmod]
    rw [if_neg (by omega : ¬ dataOff + stride * r = 0)]
    simp only [rowReads_events, rowTraces, List.cons_append,
      List.nil_append]
    exact ⟨by rw [hrec.1], hrec.2⟩

/-- Claim C5 (confirmed): for width > 0 and bitDepth in {1,4,8,16,24},
`nBytesPerRow` is the exact ceiling of width·bitDepth/8 (characterised
by `w*d ≤ 8*b < w*d + 8`), `nPaddingSize` equals
`(4 - bytesPerRow mod 4) mod 4`, `nRowDataSize` is their sum and is a
multiple of 4; and the two worked examples of the spec hold:
width 3 at 24 bpp gives 9/3/12 and width 21 at 1 bpp gives 3/1/4. -/
theorem scanline_geometry (w d : Nat) (hw : 0 < w)
    (hd : d = 1 ∨ d = 4 ∨ d = 8 ∨ d = 16 ∨ d = 24) :
    (w * d ≤ 8 * nBytesPerRow w d ∧ 8 * nBytesPerRow w d < w * d + 8) ∧
    nPaddingSize (nBytesPerRow w d) = (4 - nBytesPerRow w d % 4) % 4 ∧
    nRowDataSize w d = nBytesPerRow w d + nPaddingSize (nBytesPerRow w d) ∧
    nRowDataSize w d % 4 = 0 ∧
    (nBytesPerRow 3 24 = 9 ∧ nPaddingSize (nBytesPerRow 3 24) = 3 ∧
      nRowDataSize 3 24 = 12) ∧
    (nBytesPerRow 21 1 = 3 ∧ nPaddingSize (nBytesPerRow 21 1) = 1 ∧
      nRowDataSize 21 1 = 4) := by
  refine ⟨⟨?_, ?_⟩, ?_, rfl, ?_, by decide, by decide⟩
  · unfold nBytesPerRow; omega
  · unfold nBytesPerRow; omega
  · unfold nPaddingSize; split_ifs <;> omega
  · unfold nRowDataSize nPaddingSize nBytesPerRow; split_ifs <;> omega

/-- Witness for C5 at width 3, bitDepth 24. -/
theorem scanline_geometry_witness : nRowDataSize 3 24 % 4 = 0 :=
  (scanline_geometry 3 24 (by decide) (by decide)).2.2.2.1

/-- Claim C9 (confirmed): on a zero-length filename, `Load` returns
false immediately, with an empty trace — no open, seek or read — and
an untouched (zeroed) header and no palette. -/
theorem Load_empty_filename_no_io :
    ∀ (file : Option (List Nat)),
      Load [] file = ⟨[], false, zeroHeader, [], none, none⟩ :=
  fun _ => rfl

/-- Claim C10 (confirmed): whenever the stored header's signature is
not 19778, both `LoadColorPalleta` and `LoadRGBData` return false with
an empty trace — no seek or read is attempted — so no palette or pixel
I/O can happen before a header with a valid signature was read. -/
theorem no_io_before_valid_signature (hdr : BMPHeader) (file : List Nat)
    (pos : Nat) (h : hdr.signature ≠ 19778) :
    LoadColorPalleta hdr file pos = ⟨[], [], pos, false⟩ ∧
    LoadRGBData hdr file pos = ⟨[], pos, false⟩ := by
  constructor
  · simp [LoadColorPalleta, h]
  · simp [LoadRGBData, h]

/-- Witness for C10 at the zeroed header (signature 0). -/
theorem no_io_before_valid_signature_witness :
    LoadColorPalleta zeroHeader [] 0 = ⟨[], [], 0, false⟩ ∧
    LoadRGBData zeroHeader [] 0 = ⟨[], 0, false⟩ :=
  no_io_before_valid_signature zeroHeader [] 0 (by decide)

/-- Claim C1 (code bug): `file1` is a valid-signature, uncompressed
file claiming one palette entry but truncated at byte 54, so the
palette read inside `LoadColorPalleta` fails; `Load` nevertheless
returns true, because it discards the results of `LoadColorPalleta()`
and `LoadRGBData()`, and it produces no pixel output on any input (the
source never instantiates `ImageBuffer` and never writes a pixel), so
a "successful" decode has missing output rather than a complete
width-by-height buffer. -/
theorem Load_true_despite_palette_failure :
    (Load ['a'] (some file1)).ret = true ∧
    (Load ['a'] (some file1)).palletaOk = some false ∧
    (Load ['a'] (some file1)).palleta = [] := by decide

/-- Claim C2 (code bug): on the spec's 2-by-2 24-bit example the row
loop does seek to `dataOffset + r * rowStride` for each file row
(offsets 54 and 62 with stride 8), but the complete observable outcome
of `Load` contains no pixel data at all: nothing is ever written to an
`ImageBuffer` at index `height - 1 - r` or anywhere else, since the
pixel branch of `LoadRGBData` is empty and `ImageBuffer` is never
instantiated. -/
theorem Load_trace_on_two_row_bmp :
    (Load ['b'] (some file2)).events =
      [IOEvent.openEv, IOEvent.readEv 54, IOEvent.seekEv 54] ++
      List.replicate 6 (IOEvent.readEv 3) ++ [IOEvent.seekEv 62] ++
      List.replicate 6 (IOEvent.readEv 3) ++ [IOEvent.closeEv] ∧
    (Load ['b'] (some file2)).ret = true ∧
    (parseHeader file2).nDataOffSet = 54 ∧
    nRowDataSize 2 24 = 8 ∧ (62 : Nat) = 54 + 8 * 1 := by decide

/-- Claim C3 (code bug): `file3` has a valid signature and compression
0 but `nBIDHeaderSize = 124` (not 40) and `nBitPerPixel = 2` (not in
{1,4,8,16,24}); `Load` validates neither field — contradicting its own
comment that only a 40-byte info header is supported — and returns
true. -/
theorem Load_accepts_bad_bid_and_bitdepth :
    (parseHeader file3).nBIDHeaderSize = 124 ∧ (124 : Nat) ≠ 40 ∧
    (parseHeader file3).nBitPerPixel = 2 ∧
    ((2 : Nat) ≠ 1 ∧ (2 : Nat) ≠ 4 ∧ (2 : Nat) ≠ 8 ∧ (2 : Nat) ≠ 16 ∧
      (2 : Nat) ≠ 24) ∧
    (parseHeader file3).nCompressionMethod = 0 ∧
    (Load ['a'] (some file3)).ret = true := by decide

/-- Claim C4 (code bug): on an empty file the open succeeds and the
54-byte header read returns 0 bytes (passing the `>= 0` check), the
zero signature then fails validation and `Load` returns false through
`VERIFYFALSE` — without ever calling `close` on the descriptor it
opened. -/
theorem Load_leaks_fd_on_signature_failure :
    (Load ['a'] (some ([] : List Nat))).ret = false ∧
    IOEvent.openEv ∈ (Load ['a'] (some ([] : List Nat))).events ∧
    IOEvent.closeEv ∉ (Load ['a'] (some ([] : List Nat))).events := by
  decide

/-- Claim C6 counterexample: `file6` is a monochrome (bitDepth 1)
header with colorsUsed 0; the claim demands a loaded palette of length
`1 <<< 1 = 2`, but `LoadColorPalleta` performs no seek and no read and
stores no entry, because its only test is `nColorsInPalleta > 0`. -/
theorem palette_skipped_when_colorsUsed_zero :
    (parseHeader file6).nBitPerPixel = 1 ∧
    (parseHeader file6).nColorsInPalleta = 0 ∧
    LoadColorPalleta (parseHeader file6) file6 54 = ⟨[], [], 54, true⟩ ∧
    (LoadColorPalleta (parseHeader file6) file6 54).entries.length ≠
      2 ^ (parseHeader file6).nBitPerPixel := by decide

/-- Claim C6 (corrected): a palette is loaded iff `nColorsInPalleta`
is nonzero, regardless of bit depth; when it is loaded it starts with
a seek to offset `14 + nBIDHeaderSize` and has exactly
`nColorsInPalleta` entries; when `nColorsInPalleta = 0` nothing is
read, even for palette-indexed depths. -/
theorem palette_iff_colorsUsed_pos (hdr : BMPHeader) (file : List Nat)
    (pos : Nat) (hsig : hdr.signature = 19778) :
    (hdr.nColorsInPalleta = 0 →
      LoadColorPalleta hdr file pos = ⟨[], [], pos, true⟩) ∧
    (0 < hdr.nColorsInPalleta →
      14 + hdr.nBIDHeaderSize < 2 ^ 31 →
      14 + hdr.nBIDHeaderSize + 4 * hdr.nColorsInPalleta ≤ file.length →
      LoadColorPalleta hdr file pos =
        ⟨IOEvent.seekEv (14 + hdr.nBIDHeaderSize) ::
           List.replicate hdr.nColorsInPalleta (IOEvent.readEv 4),
         entriesFrom file (14 + hdr.nBIDHeaderSize) hdr.nColorsInPalleta,
         14 + hdr.nBIDHeaderSize + 4 * hdr.nColorsInPalleta, true⟩ ∧
      (LoadColorPalleta hdr file pos).entries.length =
        hdr.nColorsInPalleta) := by
  constructor
  · intro h0
    simp [LoadColorPalleta, hsig, h0]
  · intro hc hb hlen
    have h := LoadColorPalleta_complete hdr file pos hsig hc hb hlen
    refine ⟨h, ?_⟩
    rw [h]
    exact length_entriesFrom file _ _

/-- Witness for the corrected C6 at `file7` (one palette entry). -/
theorem palette_iff_colorsUsed_pos_witness :
    LoadColorPalleta (parseHeader file7) file7 54 =
      ⟨IOEvent.seekEv (14 + (parseHeader file7).nBIDHeaderSize) ::
         List.replicate (parseHeader file7).nColorsInPalleta
           (IOEvent.readEv 4),
       entriesFrom file7 (14 + (parseHeader file7).nBIDHeaderSize)
         (parseHeader file7).nColorsInPalleta,
       14 + (parseHeader file7).nBIDHeaderSize +
         4 * (parseHeader file7).nColorsInPalleta, true⟩ ∧
    (LoadColorPalleta (parseHeader file7) file7 54).entries.length =
      (parseHeader file7).nColorsInPalleta :=
  (palette_iff_colorsUsed_pos (parseHeader file7) file7 54 (by decide)).2
    (by decide) (by decide) (by decide)

/-- Claim C7 counterexample: `file7` holds one palette entry whose file
bytes are `(0x10, 0x20, 0x30, 0x00)`; the claim (stored red equals the
file's third byte, 0x30 = 48) fails: the stored `nRed` is the file's
FIRST byte 0x10 = 16, because the raw 4-byte read performs no
reordering. -/
theorem palette_entry_not_reordered :
    file7.getD 54 0 = 16 ∧ file7.getD 56 0 = 48 ∧
    ((LoadColorPalleta (parseHeader file7) file7 54).entries.getD 0
      ⟨0, 0, 0, 0⟩).nRed = 16 ∧
    ((LoadColorPalleta (parseHeader file7) file7 54).entries.getD 0
      ⟨0, 0, 0, 0⟩).nRed ≠ 48 ∧
    ((LoadColorPalleta (parseHeader file7) file7 54).entries.getD 0
      ⟨0, 0, 0, 0⟩).nBlue = 48 := by decide

/-- Claim C7 (corrected): each palette entry is stored with the 4 file
bytes placed into the struct fields `(nRed, nGreen, nBlue, nAlpha)` in
file order — no (Blue,Green,Red) to (Red,Green,Blue) reordering — so
the stored `nRed` equals the entry's first file byte and the stored
`nBlue` its third. -/
theorem palette_entry_file_order (hdr : BMPHeader) (file : List Nat)
    (pos : Nat) (hsig : hdr.signature = 19778)
    (hc : 0 < hdr.nColorsInPalleta)
    (hb : 14 + hdr.nBIDHeaderSize < 2 ^ 31)
    (hlen : 14 + hdr.nBIDHeaderSize + 4 * hdr.nColorsInPalleta ≤
      file.length)
    (i : Nat) (hi : i < hdr.nColorsInPalleta) :
    (LoadColorPalleta hdr file pos).entries.getD i ⟨0, 0, 0, 0⟩ =
      ⟨file.getD (14 + hdr.nBIDHeaderSize + 4 * i) 0,
       file.getD (14 + hdr.nBIDHeaderSize + 4 * i + 1) 0,
       file.getD (14 + hdr.nBIDHeaderSize + 4 * i + 2) 0,
       file.getD (14 + hdr.nBIDHeaderSize + 4 * i + 3) 0⟩ := by
  rw [LoadColorPalleta_complete hdr file pos hsig hc hb hlen]
  exact entriesFrom_getD file hdr.nColorsInPalleta i
    (14 + hdr.nBIDHeaderSize) hi

/-- Witness for the corrected C7 at `file7`, entry 0. -/
theorem palette_entry_file_order_witness :
    (LoadColorPalleta (parseHeader file7) file7 54).entries.getD 0
      ⟨0, 0, 0, 0⟩ =
      ⟨file7.getD (14 + (parseHeader file7).nBIDHeaderSize + 4 * 0) 0,
       file7.getD (14 + (parseHeader file7).nBIDHeaderSize + 4 * 0 + 1) 0,
       file7.getD (14 + (parseHeader file7).nBIDHeaderSize + 4 * 0 + 2) 0,
       file7.getD (14 + (parseHeader file7).nBIDHeaderSize + 4 * 0 + 3) 0⟩ :=
  palette_entry_file_order (parseHeader file7) file7 54 (by decide)
    (by decide) (by decide) (by decide) 0 (by decide)

/-- Claim C8 counterexample: `file8` is 1 pixel wide at 24 bpp, so the
claim demands exactly width = 1 fixed-width 3-byte sample per row,
consuming bytesPerRow = 3 payload bytes; the code instead performs
`nBytesPerRow = 3` reads of 3 bytes each (its inner loop runs
`nBytesPerRow`, not `width`, times) and its cursor advances 4 bytes,
not 3. -/
theorem row_reads_exceed_width_samples :
    (parseHeader file8).nWidth = 1 ∧
    (parseHeader file8).nBitPerPixel = 24 ∧
    nBytesPerRow 1 24 = 3 ∧
    (LoadRGBData (parseHeader file8) file8 54).events =
      [IOEvent.seekEv 54, IOEvent.readEv 3, IOEvent.readEv 3,
       IOEvent.readEv 3] ∧
    ((LoadRGBData (parseHeader file8) file8 54).events.count
      (IOEvent.readEv 3)) = 3 ∧
    (3 : Nat) ≠ 1 ∧
    (LoadRGBData (parseHeader file8) file8 54).pos = 58 ∧
    (58 : Nat) - 54 ≠ 3 := by decide

/-- Claim C8 (corrected): for bitDepth in {8,16,24} the row loop
performs, per row, one seek followed by `nBytesPerRow` (not `width`)
reads of `bitDepth / 8` bytes each; only for bitDepth 8, where
`nBytesPerRow = width`, does this coincide with reading `width`
one-byte samples. -/
theorem row_loop_reads_bytesPerRow_groups (hdr : BMPHeader)
    (file : List Nat) (pos : Nat) (hsig : hdr.signature = 19778)
    (hd : hdr.nBitPerPixel = 8 ∨ hdr.nBitPerPixel = 16 ∨
      hdr.nBitPerPixel = 24)
    (hoff : 0 < hdr.nDataOffSet)
    (hb : hdr.nDataOffSet +
      nRowDataSize hdr.nWidth.toNat hdr.nBitPerPixel *
        hdr.nHeight.natAbs < 2 ^ 32) :
    (LoadRGBData hdr file pos).events =
      rowTraces hdr.nDataOffSet
        (nRowDataSize hdr.nWidth.toNat hdr.nBitPerPixel)
        (nBytesPerRow hdr.nWidth.toNat hdr.nBitPerPixel)
        (hdr.nBitPerPixel / 8) 0 hdr.nHeight.natAbs ∧
    (LoadRGBData hdr file pos).ok = true := by
  have hbpp : nBytesPerPixel hdr.nBitPerPixel = hdr.nBitPerPixel / 8 := by
    rcases hd with h | h | h <;> rw [h] <;> rfl
  simp only [LoadRGBData, hsig, ne_eq, not_true_eq_false, if_false, hbpp]
  exact loadRGBRows_spec hdr.nDataOffSet
    (nRowDataSize hdr.nWidth.toNat hdr.nBitPerPixel)
    (nBytesPerRow hdr.nWidth.toNat hdr.nBitPerPixel)
    (hdr.nBitPerPixel / 8) file.length hoff hdr.nHeight.natAbs 0 pos
    (by simpa using hb)

/-- Witness for the corrected C8 at `file8` (1-by-1, 24 bpp). -/
theorem row_loop_reads_bytesPerRow_groups_witness :
    (LoadRGBData (parseHeader file8) file8 54).events =
      rowTraces (parseHeader file8).nDataOffSet
        (nRowDataSize (parseHeader file8).nWidth.toNat
          (parseHeader file8).nBitPerPixel)
        (nBytesPerRow (parseHeader file8).nWidth.toNat
          (parseHeader file8).nBitPerPixel)
        ((parseHeader file8).nBitPerPixel / 8) 0
        (parseHeader file8).nHeight.natAbs ∧
    (LoadRGBData (parseHeader file8) file8 54).ok = true :=
  row_loop_reads_bytesPerRow_groups (parseHeader file8) file8 54
    (by decide) (by decide) (by decide) (by decide)

end BMPModel
